import Mathlib

/-!
Verification development for the EchoLoop voice-recorder application.

The core of the repository is the recorder/player controller implemented in
`src/app/(tabs)/explore.tsx`: the React component's state hooks
(`isRecording`, `isPreparing`, `recordingUri`, `recordingDurationMillis`,
`isPlaying`, `loadingPlay`) and refs (`recordingRef`, `playbackRef`) form the
controller state, and the async functions `startRecording`, `stopRecording`
and `playRecording` (plus the status-update callbacks they register) are its
operations.  A second, simpler screen lives in `src/unnamed/part_000` with a
permission-gated `toggleRecording`.

The embedding below models each operation as a pure function from an
environment (the outcomes of the platform `expo-av` calls, which may throw)
and a controller state to the new controller state, the list of alerts shown,
and a trace of platform handle events.  Platform handles are modelled by
natural-number identifiers drawn from a fresh-id counter `nextHandle` carried
in the state (modelling `new Audio.Recording()` / `Audio.Sound.createAsync`
allocation).  JavaScript try/catch/finally control flow is translated branch
by branch: a `false` flag in the environment means the corresponding awaited
platform call throws.
-/

/-- A user-visible alert, as raised by `Alert.alert(title, message)`. -/
structure RNAlert where
  title : String
  message : String
deriving DecidableEq

/-- The alert at explore.tsx:43 (microphone permission not granted). -/
def permissionRequiredAlert : RNAlert :=
  ⟨"Permission required", "Microphone permission is required to record audio."⟩

/-- The alert at explore.tsx:72 (startRecording caught an error). -/
def recordingFailedAlert : RNAlert :=
  ⟨"Recording failed", "Could not start recording."⟩

/-- The alert at explore.tsx:92 (stopRecording caught an error). -/
def stopFailedAlert : RNAlert :=
  ⟨"Stop failed", "Could not stop recording cleanly."⟩

/-- The alert at explore.tsx:123 (playRecording caught an error). -/
def playbackFailedAlert : RNAlert :=
  ⟨"Playback failed", "Could not play recording."⟩

/-- Platform handle events, recording what the controller asked of expo-av
and how each fallible call resolved (`ok = false` means it threw). -/
inductive Event where
  | setAudioMode (ok : Bool)
  | createRecording (h : Nat)
  | prepareRecording (h : Nat) (ok : Bool)
  | startRecordingHandle (h : Nat) (ok : Bool)
  | stopAndUnload (h : Nat) (ok : Bool)
  | unloadSound (h : Nat) (ok : Bool)
  | createSound (h : Nat)
  | createSoundFailed
deriving DecidableEq

/-- Outcomes of the platform calls made by `startRecording`:
the permission answer and whether `setAudioModeAsync`,
`prepareToRecordAsync` and `startAsync` succeed. -/
structure StartEnv where
  permGranted : Bool
  audioModeOk : Bool
  prepareOk : Bool
  startOk : Bool

/-- Outcomes of the platform calls made by `stopRecording`: whether
`stopAndUnloadAsync` succeeds, and the value `getURI()` reports
(`none` models a `null` URI). -/
structure StopEnv where
  stopOk : Bool
  uri : Option String

/-- Outcomes of the platform calls made by `playRecording`: whether
`unloadAsync` of a previous sound succeeds, and whether
`Audio.Sound.createAsync` succeeds. -/
structure PlayEnv where
  unloadOk : Bool
  createOk : Bool

/-- The controller state of the Explore screen: the React state hooks and
refs of explore.tsx:6-13, plus a model-level fresh-id counter for handles. -/
structure ControllerState where
  isRecording : Bool
  isPreparing : Bool
  recordingUri : Option String
  recordingDurationMillis : Nat
  recordingRef : Option Nat
  playbackRef : Option Nat
  isPlaying : Bool
  loadingPlay : Bool
  nextHandle : Nat
deriving DecidableEq

/-- The initial state of the component: every flag false, no uri, no refs. -/
def initialState : ControllerState :=
  { isRecording := false, isPreparing := false, recordingUri := none
    recordingDurationMillis := 0, recordingRef := none, playbackRef := none
    isPlaying := false, loadingPlay := false, nextHandle := 0 }

/-- JavaScript truthiness test used on `recordingUri : string | null`:
`!recordingUri` is true for `null` and for the empty string. -/
def falsyUri : Option String → Bool
  | none => true
  | some u => u == ""

/-- explore.tsx:31-36.  `Math.floor(ms/1000)`, minutes, seconds,
and the template literal with `padStart(2, "0")` on the seconds. -/
def padStart2 (str : String) : String :=
  if str.length < 2 then String.mk (List.replicate (2 - str.length) '0') ++ str
  else str

/-- explore.tsx:31-36, the duration formatter. -/
def formatMillis (ms : Nat) : String :=
  let totalSec := ms / 1000
  let m := totalSec / 60
  let s := totalSec % 60
  toString m ++ ":" ++ padStart2 (toString s)

/-- explore.tsx:38-76 (`startRecording`).  Sets `isPreparing` true; if the
permission is not granted, alerts and returns (the finally clause leaves
`isPreparing` false).  Otherwise configures the audio mode, creates a
recording handle, stores it in `recordingRef`, prepares and starts it; on
success sets `isRecording` true and clears `recordingUri`.  Any throw lands
in the catch clause, which only alerts: a handle already stored in
`recordingRef` stays there.  The finally clause always clears `isPreparing`. -/
def startRecording (env : StartEnv) (s : ControllerState) :
    ControllerState × List RNAlert × List Event :=
  let s1 := { s with isPreparing := true }
  if !env.permGranted then
    ({ s1 with isPreparing := false }, [permissionRequiredAlert], [])
  else if !env.audioModeOk then
    ({ s1 with isPreparing := false }, [recordingFailedAlert],
      [Event.setAudioMode false])
  else
    let h := s1.nextHandle
    let s2 := { s1 with recordingRef := some h, nextHandle := s1.nextHandle + 1 }
    if !env.prepareOk then
      ({ s2 with isPreparing := false }, [recordingFailedAlert],
        [Event.setAudioMode true, Event.createRecording h,
          Event.prepareRecording h false])
    else if !env.startOk then
      ({ s2 with isPreparing := false }, [recordingFailedAlert],
        [Event.setAudioMode true, Event.createRecording h,
          Event.prepareRecording h true, Event.startRecordingHandle h false])
    else
      ({ s2 with isRecording := true, recordingUri := none, isPreparing := false },
        [],
        [Event.setAudioMode true, Event.createRecording h,
          Event.prepareRecording h true, Event.startRecordingHandle h true])

/-- explore.tsx:60-64, the duration subscriber registered on the recording
handle: while the status reports recording, it overwrites
`recordingDurationMillis` with `status.durationMillis ?? 0`. -/
def onRecordingStatusUpdate (isRec : Bool) (durationMillis : Option Nat)
    (s : ControllerState) : ControllerState :=
  if isRec then { s with recordingDurationMillis := durationMillis.getD 0 }
  else s

/-- explore.tsx:78-96 (`stopRecording`).  Reads `recordingRef`; if null,
returns early (the finally clause still clears `isPreparing`).  Otherwise
sets `isPreparing`, awaits `stopAndUnloadAsync`; on success stores the URI,
clears `isRecording` and the ref.  If the await throws, the catch clause only
alerts: `isRecording` and `recordingRef` keep their values.  The finally
clause always clears `isPreparing`. -/
def stopRecording (env : StopEnv) (s : ControllerState) :
    ControllerState × List RNAlert × List Event :=
  match s.recordingRef with
  | none => ({ s with isPreparing := false }, [], [])
  | some h =>
    let s1 := { s with isPreparing := true }
    if !env.stopOk then
      ({ s1 with isPreparing := false }, [stopFailedAlert],
        [Event.stopAndUnload h false])
    else
      ({ s1 with
          recordingUri := env.uri, isRecording := false,
          recordingRef := none, isPreparing := false }, [],
        [Event.stopAndUnload h true])

/-- The second half of explore.tsx:98-128 after any previous sound has been
dealt with: `Audio.Sound.createAsync({uri}, {shouldPlay: true})`.  On success
the new handle is stored and `isPlaying` set; on throw the catch clause
alerts and clears `isPlaying`.  The finally clause clears `loadingPlay`. -/
def playCreate (env : PlayEnv) (s : ControllerState) (evs : List Event) :
    ControllerState × List RNAlert × List Event :=
  if !env.createOk then
    ({ s with isPlaying := false, loadingPlay := false },
      [playbackFailedAlert], evs ++ [Event.createSoundFailed])
  else
    ({ s with
        playbackRef := some s.nextHandle, isPlaying := true,
        loadingPlay := false, nextHandle := s.nextHandle + 1 }, [],
      evs ++ [Event.createSound s.nextHandle])

/-- explore.tsx:98-128 (`playRecording`).  Returns immediately if
`recordingUri` is falsy (before `setLoadingPlay(true)`).  Otherwise sets
`loadingPlay`; if a previous sound exists, awaits its `unloadAsync` and nulls
the ref before creating the new sound — if that unload throws, the catch
clause alerts and clears `isPlaying`, the old ref is kept (the null
assignment was not reached) and no new sound is created. -/
def playRecording (env : PlayEnv) (s : ControllerState) :
    ControllerState × List RNAlert × List Event :=
  if falsyUri s.recordingUri then (s, [], [])
  else
    let s1 := { s with loadingPlay := true }
    match s.playbackRef with
    | some old =>
      if !env.unloadOk then
        ({ s1 with isPlaying := false, loadingPlay := false },
          [playbackFailedAlert], [Event.unloadSound old false])
      else
        playCreate env { s1 with playbackRef := none } [Event.unloadSound old true]
    | none => playCreate env s1 []

/-- The playback status reported by expo-av, as far as the callback at
explore.tsx:112-120 inspects it. -/
structure AVStatus where
  isLoaded : Bool
  didJustFinish : Bool

/-- explore.tsx:112-120, the completion subscriber registered on the sound
`h`: a null status or an unloaded status is ignored; on `didJustFinish` it
clears `isPlaying`, fires `sound.unloadAsync()` (errors swallowed by
`.catch`, outcome `unloadOk`) and nulls `playbackRef`. -/
def onPlaybackStatusUpdate (h : Nat) (unloadOk : Bool)
    (status : Option AVStatus) (s : ControllerState) :
    ControllerState × List Event :=
  match status with
  | none => (s, [])
  | some st =>
    if !st.isLoaded then (s, [])
    else if st.didJustFinish then
      ({ s with isPlaying := false, playbackRef := none },
        [Event.unloadSound h unloadOk])
    else (s, [])

/-- explore.tsx:156, the `disabled` prop of the Play button:
`!recordingUri || isPlaying || loadingPlay`. -/
def playDisabled (s : ControllerState) : Bool :=
  falsyUri s.recordingUri || s.isPlaying || s.loadingPlay

/-- explore.tsx:154-164: the Play pressable.  A disabled pressable does not
fire `onPress`, so issuing the play intent while disabled is a no-op;
otherwise it invokes `playRecording`. -/
def pressPlay (env : PlayEnv) (s : ControllerState) :
    ControllerState × List RNAlert × List Event :=
  if playDisabled s then (s, [], []) else playRecording env s

/-- explore.tsx:143-152: the Record/Stop pressable,
`onPress={isRecording ? stopRecording : startRecording}`. -/
def pressRecord (envStart : StartEnv) (envStop : StopEnv)
    (s : ControllerState) : ControllerState × List RNAlert × List Event :=
  if s.isRecording then stopRecording envStop s else startRecording envStart s

/-- The state of the simple screen in src/unnamed/part_000. -/
structure SimpleState where
  recording : Bool
  granted : Bool
deriving DecidableEq

/-- part_000:16-19 (`toggleRecording`): without the permission it alerts and
returns; otherwise it flips the `recording` flag. -/
def toggleRecording (s : SimpleState) : SimpleState × List String :=
  if !s.granted then (s, ["Microphone permission required"])
  else ({ s with recording := !s.recording }, [])

/-- One serialized intent delivered to the controller: a settled
`startRecording`, `stopRecording` or `playRecording` call (carrying the
outcomes of its platform calls), or one of the two status callbacks. -/
inductive Intent where
  | start (env : StartEnv)
  | stop (env : StopEnv)
  | play (env : PlayEnv)
  | recStatus (isRec : Bool) (durationMillis : Option Nat)
  | pbStatus (h : Nat) (unloadOk : Bool) (status : Option AVStatus)

/-- The state reached after one settled intent. -/
def stepIntent (s : ControllerState) : Intent → ControllerState
  | Intent.start env => (startRecording env s).1
  | Intent.stop env => (stopRecording env s).1
  | Intent.play env => (playRecording env s).1
  | Intent.recStatus r d => onRecordingStatusUpdate r d s
  | Intent.pbStatus h ok st => (onPlaybackStatusUpdate h ok st s).1

/-- The state reached after a sequence of settled intents. -/
def runIntents (s : ControllerState) : List Intent → ControllerState
  | [] => s
  | i :: rest => runIntents (stepIntent s i) rest

/-- How one platform event changes the number of live playback handles:
a successful `unloadAsync` releases one, a successful `createAsync`
creates one. -/
def pbApply (n : Nat) : Event → Nat
  | Event.unloadSound _ true => n - 1
  | Event.createSound _ => n + 1
  | _ => n

/-- The largest number of playback handles simultaneously live at any
instant while an event trace runs, starting from `n` live handles. -/
def pbLiveMax (n : Nat) : List Event → Nat
  | [] => n
  | e :: rest => max n (pbLiveMax (pbApply n e) rest)

/-- Number of playback handles live before an operation starts: one exactly
when `playbackRef` holds a sound. -/
def pbInit (s : ControllerState) : Nat :=
  if s.playbackRef.isSome then 1 else 0

/-- For seconds below 60, `padStart(2, "0")` on the decimal representation
yields exactly the zero-padded two-digit form. -/
lemma padStart2_toString_lt60 (r : Nat) (hr : r < 60) :
    padStart2 (toString r) = if r < 10 then "0" ++ toString r else toString r := by
  revert hr
  revert r
  decide

/-- C6: the duration formatter maps milliseconds to a minutes:seconds string
with the seconds zero-padded to two digits; in particular
`formatMillis 0 = "0:00"`, `formatMillis 61000 = "1:01"` and
`formatMillis 600000 = "10:00"`. -/
theorem formatMillis_correct :
    formatMillis 0 = "0:00" ∧ formatMillis 61000 = "1:01" ∧
    formatMillis 600000 = "10:00" ∧
    ∀ ms : Nat, formatMillis ms =
      toString (ms / 60000) ++ ":" ++
        (if ms / 1000 % 60 < 10 then "0" ++ toString (ms / 1000 % 60)
         else toString (ms / 1000 % 60)) := by
  refine ⟨rfl, rfl, rfl, fun ms => ?_⟩
  have h60 : ms / 1000 % 60 < 60 := Nat.mod_lt _ (by decide)
  have hdd : ms / 1000 / 60 = ms / 60000 := by
    rw [Nat.div_div_eq_div_mul]
  simp only [formatMillis]
  rw [hdd, padStart2_toString_lt60 _ h60]

/-- C9: calling `stopRecording` with no active recording handle is a no-op
raising no alert: from any settled state (`isPreparing` already false, as it
is whenever no operation is in flight) with `recordingRef` null, the state is
returned unchanged with no alerts and no platform events. -/
theorem stopRecording_no_handle_noop (env : StopEnv) (s : ControllerState)
    (hrec : s.recordingRef = none) (hprep : s.isPreparing = false) :
    stopRecording env s = (s, [], []) := by
  obtain ⟨r, p, u, d, rr, pb, ip, lp, nh⟩ := s
  simp only at hrec hprep
  subst hrec
  subst hprep
  simp [stopRecording]

/-- C9 witness: the initial state has no recording handle, and stopping
there changes nothing. -/
theorem stopRecording_no_handle_noop_witness :
    stopRecording ⟨true, none⟩ initialState = (initialState, [], []) :=
  stopRecording_no_handle_noop ⟨true, none⟩ initialState rfl rfl

/-- C10: calling `playRecording` with no file reference (`recordingUri`
null) returns before any effect: `loadingPlay` is never set, no handle is
released or created, no alert is raised, and the state is unchanged. -/
theorem playRecording_no_uri_noop (env : PlayEnv) (s : ControllerState)
    (huri : s.recordingUri = none) :
    playRecording env s = (s, [], []) := by
  simp [playRecording, huri, falsyUri]

/-- C10 witness: playing from the initial state (no recording yet) is a
complete no-op. -/
theorem playRecording_no_uri_noop_witness :
    playRecording ⟨true, true⟩ initialState = (initialState, [], []) :=
  playRecording_no_uri_noop ⟨true, true⟩ initialState rfl

/-- C3: issuing the play intent while `isPlaying` or `loadingPlay` is true
is a no-op: the Play pressable is disabled (explore.tsx:156), so `onPress`
does not fire, every state field is unchanged, and no handle event occurs. -/
theorem pressPlay_reentrancy_noop (env : PlayEnv) (s : ControllerState)
    (h : s.isPlaying = true ∨ s.loadingPlay = true) :
    pressPlay env s = (s, [], []) := by
  have hd : playDisabled s = true := by
    rcases h with h | h <;> simp [playDisabled, h]
  simp [pressPlay, hd]

/-- C3 witness: pressing Play while a playback is already in progress
changes nothing. -/
theorem pressPlay_reentrancy_noop_witness :
    pressPlay ⟨true, true⟩
      { initialState with
        recordingUri := some "file:rec", isPlaying := true,
        playbackRef := some 0, nextHandle := 1 } =
      ({ initialState with
          recordingUri := some "file:rec", isPlaying := true,
          playbackRef := some 0, nextHandle := 1 }, [], []) :=
  pressPlay_reentrancy_noop ⟨true, true⟩ _ (Or.inl rfl)

/-- C5: `startRecording` invoked while the permission is not granted never
leaves Idle: it alerts, acquires no handle, touches no other field, and
performs no platform call; likewise `toggleRecording` in part_000 alerts and
leaves its state unchanged when the permission is missing. -/
theorem startRecording_permission_denied (env : StartEnv)
    (s : ControllerState) (hperm : env.permGranted = false)
    (hprep : s.isPreparing = false) (t : SimpleState)
    (hg : t.granted = false) :
    startRecording env s = (s, [permissionRequiredAlert], []) ∧
    toggleRecording t = (t, ["Microphone permission required"]) := by
  constructor
  · obtain ⟨r, p, u, d, rr, pb, ip, lp, nh⟩ := s
    simp only at hprep
    subst hprep
    simp [startRecording, hperm]
  · obtain ⟨rec, gr⟩ := t
    simp only at hg
    subst hg
    simp [toggleRecording]

/-- C5 witness: with the permission denied, starting from the initial state
only raises the permission alert, on both screens. -/
theorem startRecording_permission_denied_witness :
    startRecording ⟨false, true, true, true⟩ initialState =
      (initialState, [permissionRequiredAlert], []) ∧
    toggleRecording ⟨false, false⟩ =
      (⟨false, false⟩, ["Microphone permission required"]) :=
  startRecording_permission_denied ⟨false, true, true, true⟩ initialState
    rfl rfl ⟨false, false⟩ rfl

/-- C7: when the platform playback callback reports a loaded status with
`didJustFinish`, the controller clears `isPlaying`, releases the playback
handle (`unloadAsync` plus nulling `playbackRef`) and keeps every other
field — in particular `recordingUri` — unchanged: it is back in
Idle(withFile) with no user intent involved. -/
theorem playback_finish_auto_clears (h : Nat) (unloadOk : Bool)
    (st : AVStatus) (s : ControllerState) (hl : st.isLoaded = true)
    (hf : st.didJustFinish = true) :
    onPlaybackStatusUpdate h unloadOk (some st) s =
      ({ s with isPlaying := false, playbackRef := none },
        [Event.unloadSound h unloadOk]) := by
  simp [onPlaybackStatusUpdate, hl, hf]

/-- C7 witness: a finished status on sound 0 while playing returns the
controller to Idle(withFile). -/
theorem playback_finish_auto_clears_witness :
    onPlaybackStatusUpdate 0 true (some ⟨true, true⟩)
      { initialState with
        recordingUri := some "file:rec", isPlaying := true,
        playbackRef := some 0, nextHandle := 1 } =
      ({ initialState with
          recordingUri := some "file:rec", nextHandle := 1 },
        [Event.unloadSound 0 true]) := by
  simpa using playback_finish_auto_clears 0 true ⟨true, true⟩
    { initialState with
      recordingUri := some "file:rec", isPlaying := true,
      playbackRef := some 0, nextHandle := 1 } rfl rfl

/-- C1 counterexample: with a live recording handle, when
`stopAndUnloadAsync` throws the catch clause at explore.tsx:90-92 only
alerts — `isRecording` stays true and the handle stays in `recordingRef`,
so the controller is not moved to Idle; and when finalization succeeds but
`getURI()` reports null, `recordingUri` ends up null, not non-empty. -/
theorem stopRecording_claimed_postcondition_fails :
    (stopRecording ⟨false, none⟩
      { initialState with
        isRecording := true, recordingRef := some 0,
        recordingDurationMillis := 4000, nextHandle := 1 }).1.isRecording
      = true ∧
    (stopRecording ⟨false, none⟩
      { initialState with
        isRecording := true, recordingRef := some 0,
        recordingDurationMillis := 4000, nextHandle := 1 }).1.recordingRef
      = some 0 ∧
    (stopRecording ⟨true, none⟩
      { initialState with
        isRecording := true, recordingRef := some 0,
        recordingDurationMillis := 4000, nextHandle := 1 }).1.recordingUri
      = none :=
  ⟨rfl, rfl, rfl⟩

/-- C1 (amended): with a live recording handle, a successful `stopRecording`
stores the URI reported by the handle (null if the platform reports none),
clears `isRecording`, releases the handle and clears `isPreparing`; a failed
`stopRecording` surfaces the stop-failure alert and clears `isPreparing`,
but leaves `isRecording` and `recordingRef` exactly as they were — the
controller is not forced back to Idle and the handle is retained. -/
theorem stopRecording_amended (env : StopEnv) (s : ControllerState)
    (h : Nat) (hrec : s.recordingRef = some h) :
    stopRecording env s =
      if env.stopOk then
        ({ s with
            isPreparing := false, isRecording := false,
            recordingUri := env.uri, recordingRef := none }, [],
          [Event.stopAndUnload h true])
      else
        ({ s with isPreparing := false }, [stopFailedAlert],
          [Event.stopAndUnload h false]) := by
  obtain ⟨ok, uri⟩ := env
  obtain ⟨r, p, u, d, rr, pb, ip, lp, nh⟩ := s
  simp only at hrec
  subst hrec
  cases ok <;> simp [stopRecording]

/-- C1 amended witness: a concrete successful stop stores the reported URI
and returns to Idle(withFile); the same state under a failing stop keeps its
recording flag and handle while alerting. -/
theorem stopRecording_amended_witness :
    stopRecording ⟨true, some "file:rec"⟩
      { initialState with
        isRecording := true, recordingRef := some 0,
        recordingDurationMillis := 4000, nextHandle := 1 } =
      ({ initialState with
          recordingUri := some "file:rec",
          recordingDurationMillis := 4000, nextHandle := 1 }, [],
        [Event.stopAndUnload 0 true]) := by
  simpa using stopRecording_amended ⟨true, some "file:rec"⟩
    { initialState with
      isRecording := true, recordingRef := some 0,
      recordingDurationMillis := 4000, nextHandle := 1 } 0 rfl

/-- C2 counterexample: when `prepareToRecordAsync` throws, the handle
created at explore.tsx:57-58 is still stored in `recordingRef` after
`startRecording` settles — the catch clause (explore.tsx:70-72) only alerts
and never releases it, contradicting "no recording handle remains held". -/
theorem startRecording_claimed_release_fails :
    (startRecording ⟨true, true, false, true⟩ initialState).1.recordingRef
      = some 0 ∧
    (startRecording ⟨true, true, false, true⟩ initialState).2.1
      = [recordingFailedAlert] :=
  ⟨rfl, rfl⟩

/-- C2 (amended): when the permission is granted and configuration or
handle acquisition fails, `startRecording` surfaces the start-failure alert
and clears `isPreparing` (so `isRecording` is never set and the controller
is back at rest); a failure in `setAudioModeAsync` happens before any handle
exists and leaves `recordingRef` unchanged, but a failure in
`prepareToRecordAsync` or `startAsync` leaves the newly created handle held
in `recordingRef` — it is not released. -/
theorem startRecording_amended (env : StartEnv) (s : ControllerState)
    (hperm : env.permGranted = true)
    (hfail : env.audioModeOk = false ∨ env.prepareOk = false ∨
      env.startOk = false) :
    startRecording env s =
      if !env.audioModeOk then
        ({ s with isPreparing := false }, [recordingFailedAlert],
          [Event.setAudioMode false])
      else if !env.prepareOk then
        ({ s with
            isPreparing := false, recordingRef := some s.nextHandle,
            nextHandle := s.nextHandle + 1 }, [recordingFailedAlert],
          [Event.setAudioMode true, Event.createRecording s.nextHandle,
            Event.prepareRecording s.nextHandle false])
      else
        ({ s with
            isPreparing := false, recordingRef := some s.nextHandle,
            nextHandle := s.nextHandle + 1 }, [recordingFailedAlert],
          [Event.setAudioMode true, Event.createRecording s.nextHandle,
            Event.prepareRecording s.nextHandle true,
            Event.startRecordingHandle s.nextHandle false]) := by
  obtain ⟨pg, am, po, so⟩ := env
  simp only at hperm hfail
  subst hperm
  cases am <;> cases po <;> cases so <;> simp_all [startRecording]

/-- C2 amended witness: a concrete failing `prepareToRecordAsync` leaves
the fresh handle held while the start-failure alert is surfaced. -/
theorem startRecording_amended_witness :
    startRecording ⟨true, true, false, true⟩ initialState =
      ({ initialState with recordingRef := some 0, nextHandle := 1 },
        [recordingFailedAlert],
        [Event.setAudioMode true, Event.createRecording 0,
          Event.prepareRecording 0 false]) := by
  simpa using startRecording_amended ⟨true, true, false, true⟩ initialState
    rfl (Or.inr (Or.inl rfl))

/-- `startRecording` always settles with `isPreparing` false (the finally
clause at explore.tsx:73-75) and never touches `loadingPlay`. -/
lemma startRecording_settles (env : StartEnv) (s : ControllerState) :
    (startRecording env s).1.isPreparing = false ∧
    (startRecording env s).1.loadingPlay = s.loadingPlay := by
  obtain ⟨pg, am, po, so⟩ := env
  cases pg <;> cases am <;> cases po <;> cases so <;>
    simp [startRecording]

/-- `stopRecording` always settles with `isPreparing` false (the finally
clause at explore.tsx:93-95) and never touches `loadingPlay`. -/
lemma stopRecording_settles (env : StopEnv) (s : ControllerState) :
    (stopRecording env s).1.isPreparing = false ∧
    (stopRecording env s).1.loadingPlay = s.loadingPlay := by
  obtain ⟨ok, uri⟩ := env
  cases hrec : s.recordingRef <;> cases ok <;>
    simp [stopRecording, hrec]

/-- `playRecording` never touches `isPreparing`, and settles with
`loadingPlay` false whenever it was false at the call (either the guard at
explore.tsx:99 returns before setting it, or the finally clause at
explore.tsx:125-127 clears it). -/
lemma playRecording_settles (env : PlayEnv) (s : ControllerState) :
    (playRecording env s).1.isPreparing = s.isPreparing ∧
    (s.loadingPlay = false → (playRecording env s).1.loadingPlay = false) := by
  obtain ⟨uo, co⟩ := env
  cases hu : falsyUri s.recordingUri
  · cases hpb : s.playbackRef <;> cases uo <;> cases co <;>
      simp [playRecording, playCreate, hu, hpb]
  · simp [playRecording, hu]

/-- One settled intent keeps the controller out of the transient states:
if `isPreparing` and `loadingPlay` are false before it, they are false
after it. -/
lemma stepIntent_settled (s : ControllerState) (i : Intent)
    (h1 : s.isPreparing = false) (h2 : s.loadingPlay = false) :
    (stepIntent s i).isPreparing = false ∧
    (stepIntent s i).loadingPlay = false := by
  cases i with
  | start env =>
    obtain ⟨ha, hb⟩ := startRecording_settles env s
    exact ⟨ha, by rw [stepIntent, hb, h2]⟩
  | stop env =>
    obtain ⟨ha, hb⟩ := stopRecording_settles env s
    exact ⟨ha, by rw [stepIntent, hb, h2]⟩
  | play env =>
    obtain ⟨ha, hb⟩ := playRecording_settles env s
    exact ⟨by rw [stepIntent, ha, h1], by rw [stepIntent]; exact hb h2⟩
  | recStatus r d =>
    cases r <;> simp [stepIntent, onRecordingStatusUpdate, h1, h2]
  | pbStatus h ok st =>
    match st with
    | none => exact ⟨h1, h2⟩
    | some av =>
      cases hl : av.isLoaded <;> cases hf : av.didJustFinish <;>
        simp [stepIntent, onPlaybackStatusUpdate, hl, hf, h1, h2]

/-- The invariant of `stepIntent_settled`, pushed through a sequence. -/
lemma runIntents_settled (intents : List Intent) (s : ControllerState)
    (h1 : s.isPreparing = false) (h2 : s.loadingPlay = false) :
    (runIntents s intents).isPreparing = false ∧
    (runIntents s intents).loadingPlay = false := by
  induction intents generalizing s with
  | nil => exact ⟨h1, h2⟩
  | cons i rest ih =>
    obtain ⟨a, b⟩ := stepIntent_settled s i h1 h2
    exact ih (stepIntent s i) a b

/-- C4: operations never settle inside a transient state: `startRecording`
and `stopRecording` always end with `isPreparing` false, and along every
sequence of settled intents from the initial state the controller has
`isPreparing = false` and `loadingPlay = false` after each operation
settles. -/
theorem operations_never_settle_transient :
    (∀ (env : StartEnv) (s : ControllerState),
      (startRecording env s).1.isPreparing = false) ∧
    (∀ (env : StopEnv) (s : ControllerState),
      (stopRecording env s).1.isPreparing = false) ∧
    ∀ intents : List Intent,
      (runIntents initialState intents).isPreparing = false ∧
      (runIntents initialState intents).loadingPlay = false :=
  ⟨fun env s => (startRecording_settles env s).1,
    fun env s => (stopRecording_settles env s).1,
    fun intents => runIntents_settled intents initialState rfl rfl⟩

/-- C8: during any execution of `playRecording`, at most one playback
handle is live at any instant: counting the handle possibly held in
`playbackRef` at entry and replaying the platform-event trace of the call,
the number of simultaneously live playback handles never exceeds one — a
previous sound is fully unloaded (awaited, explore.tsx:103-106) before
`createAsync` runs. -/
theorem playRecording_single_live_handle (env : PlayEnv)
    (s : ControllerState) :
    pbLiveMax (pbInit s) (playRecording env s).2.2 ≤ 1 := by
  obtain ⟨uo, co⟩ := env
  cases hu : falsyUri s.recordingUri
  · cases hpb : s.playbackRef <;> cases uo <;> cases co <;>
      simp [playRecording, playCreate, hu, hpb, pbInit, pbLiveMax, pbApply]
  · cases hpb : s.playbackRef <;>
      simp [playRecording, hu, hpb, pbInit, pbLiveMax]
